import Mathlib

/-!
Shallow embedding of the spisens SPI sensor driver (src/spisensdrv.c).

Registers are 8-bit values addressed through a register map; the driver
exposes two sysfs attributes (enable, data) and a probe routine.
C locals of type unsigned int are modelled as Nat reduced mod 2^32 where
overflow could occur; C int return codes are modelled as Int.
Register reads are modelled by passing in the status returned by
regmap_read together with the value left in the output variable
(the register value on success, an arbitrary residue on failure,
matching the fact that regmap_read may not write the variable on error).
-/

namespace Spisens

/-- Constant from the source: SPISENS_REG_SHIFT. -/
def SPISENS_REG_SHIFT : Nat := 4

/-- Constant from the source: SPISENS_REG_ID = 0 shifted left by SPISENS_REG_SHIFT. -/
def SPISENS_REG_ID : Nat := 0 <<< SPISENS_REG_SHIFT

/-- Constant from the source: SPISENS_REG_CTRL = 1 shifted left by SPISENS_REG_SHIFT. -/
def SPISENS_REG_CTRL : Nat := 1 <<< SPISENS_REG_SHIFT

/-- Constant from the source: SPISENS_REG_DATA = 2 shifted left by SPISENS_REG_SHIFT. -/
def SPISENS_REG_DATA : Nat := 2 <<< SPISENS_REG_SHIFT

/-- Constant from the source: CTRL_EN_MASK = 0x1. -/
def CTRL_EN_MASK : Nat := 0x1

/-- Constant from the source: SPISENS_ID = 0x5A, the ID register sentinel. -/
def SPISENS_ID : Nat := 0x5A

/-- Linux error number ENOMEM (probe returns its negation). -/
def ENOMEM : Int := 12

/-- Linux error number ENODEV (probe returns its negation). -/
def ENODEV : Int := 19

/-- Modulus of the C type unsigned int (32 bits). -/
def UINT_MOD : Nat := 2 ^ 32

/-- The 32-bit value of the C expression compl CTRL_EN_MASK, i.e. 0xFFFFFFFE. -/
def NOT_CTRL_EN_MASK : Nat := UINT_MOD - 1 - CTRL_EN_MASK

/-- Value printed by the C conversion %d when handed a 32-bit unsigned value:
the two's-complement reinterpretation as a signed int. -/
def int_of_uint (x : Nat) : Int :=
  if x < 2 ^ 31 then (x : Int) else (x : Int) - (UINT_MOD : Int)

/-- The C double negation !!x: 0 for zero, 1 for nonzero. -/
def bang_bang (x : Nat) : Nat := if x = 0 then 0 else 1

/-- Private data structure of the driver, struct spisens: a single field
holding the register-map handle (modelled abstractly by a Nat identifier). -/
structure spisens where
  regmap : Nat

/-- enable_show from the source: reads CTRL (status rerr, value left in the
local is readval), masks with CTRL_EN_MASK, prints !!enable and a newline.
The read status rerr is never consulted. -/
def enable_show (rerr : Int) (readval : Nat) : String :=
  let enable := readval &&& CTRL_EN_MASK
  toString (bang_bang enable) ++ "\n"

/-- The new CTRL value computed by enable_store: clear bit 0 when the
parsed integer is zero, set bit 0 otherwise (32-bit unsigned ops). -/
def enable_store_newctrl (ctrl : Nat) (n : Int) : Nat :=
  if n = 0 then ctrl &&& NOT_CTRL_EN_MASK else ctrl ||| CTRL_EN_MASK

/-- enable_store from the source: reads CTRL (status rerr ignored, value
left in the local is ctrl), parses the integer n from the buffer, updates
bit 0, writes the result back (write status werr), and returns count on a
successful write or the negative write status otherwise. The result pair
is (value written to CTRL, value returned to the caller). -/
def enable_store (rerr : Int) (ctrl : Nat) (n : Int) (werr : Int) (count : Nat) :
    Nat × Int :=
  (enable_store_newctrl ctrl n, if werr < 0 then werr else (count : Int))

/-- data_show from the source: reads DATA (status rerr ignored, value left
in the local is readval), multiplies by 1000 in 32-bit unsigned arithmetic,
shifts right by one, and prints the result with %d and a newline. -/
def data_show (rerr : Int) (readval : Nat) : String :=
  let temperature := (readval * 1000) % UINT_MOD
  let temperature2 := temperature >>> 1
  toString (int_of_uint temperature2) ++ "\n"

/-- spisens_regmap_is_writeable from the source: a register accepts writes
exactly when it is the CTRL register. -/
def spisens_regmap_is_writeable (reg : Nat) : Bool :=
  reg == SPISENS_REG_CTRL

/-- A sysfs device attribute: its name and which callbacks it exposes.
DEVICE_ATTR_RW gives both, DEVICE_ATTR_RO gives only the show callback. -/
structure DeviceAttribute where
  name : String
  has_show : Bool
  has_store : Bool

/-- dev_attr_enable, declared with DEVICE_ATTR_RW(enable). -/
def dev_attr_enable : DeviceAttribute := ⟨"enable", true, true⟩

/-- dev_attr_data, declared with DEVICE_ATTR_RO(data). -/
def dev_attr_data : DeviceAttribute := ⟨"data", true, false⟩

/-- One observable side-effecting operation performed by the driver. -/
inductive Op
  | alloc
  | regmapInit
  | regRead (reg : Nat)
  | regWrite (reg : Nat) (val : Nat)
  | sysfsCreate
deriving DecidableEq

/-- Environment of one probe call: outcome of each host-supplied operation
in source order. regmap_init carries PTR_ERR of the failed pointer on error. -/
structure ProbeEnv where
  kzalloc_ok : Bool
  regmap_init : Except Int Unit
  id_read_status : Int
  id_read_val : Nat
  sysfs_status : Int

/-- spisens_probe from the source, with its trace of operations:
allocate private data (-ENOMEM on failure), initialise the regmap
(PTR_ERR on failure), read the ID register (propagate a negative status),
compare against SPISENS_ID (-ENODEV on mismatch), then create the sysfs
group; a sysfs failure is only logged and probe still returns 0. -/
def spisens_probe_tr (env : ProbeEnv) : Int × List Op :=
  if env.kzalloc_ok = false then
    (-ENOMEM, [Op.alloc])
  else
    match env.regmap_init with
    | Except.error e => (e, [Op.alloc, Op.regmapInit])
    | Except.ok _ =>
      if env.id_read_status < 0 then
        (env.id_read_status, [Op.alloc, Op.regmapInit, Op.regRead SPISENS_REG_ID])
      else if env.id_read_val ≠ SPISENS_ID then
        (-ENODEV, [Op.alloc, Op.regmapInit, Op.regRead SPISENS_REG_ID])
      else
        (0, [Op.alloc, Op.regmapInit, Op.regRead SPISENS_REG_ID, Op.sysfsCreate])

/-- Return value of spisens_probe. -/
def spisens_probe (env : ProbeEnv) : Int := (spisens_probe_tr env).1

/-- Register transactions performed by one enable_show call. -/
def enable_show_ops : List Op := [Op.regRead SPISENS_REG_CTRL]

/-- Register transactions performed by one data_show call. -/
def data_show_ops : List Op := [Op.regRead SPISENS_REG_DATA]

/-- Register transactions performed by one enable_store call. -/
def enable_store_ops (ctrl : Nat) (n : Int) : List Op :=
  [Op.regRead SPISENS_REG_CTRL,
   Op.regWrite SPISENS_REG_CTRL (enable_store_newctrl ctrl n)]

/-- Registers written by a list of operations. -/
def writesIn (ops : List Op) : List Nat :=
  ops.filterMap fun op => match op with
    | Op.regWrite r _ => some r
    | _ => none

/-- C1: for every 8-bit value v read from the DATA register, data_show
outputs the decimal representation of v * 500 followed by a newline; the
intermediate v * 1000 does not overflow 32 bits and the right shift by one
halves it exactly. -/
theorem data_show_scales_by_500 (rerr : Int) (v : Nat) (hv : v ≤ 255) :
    data_show rerr v = toString (v * 500) ++ "\n" := by
  have h1 : v * 1000 < UINT_MOD := by unfold UINT_MOD; omega
  show toString (int_of_uint ((v * 1000 % UINT_MOD) >>> 1)) ++ "\n"
    = toString (v * 500) ++ "\n"
  rw [Nat.mod_eq_of_lt h1, Nat.shiftRight_eq_div_pow]
  have h3 : v * 1000 / 2 ^ 1 = v * 500 := by omega
  rw [h3]
  unfold int_of_uint
  rw [if_pos (by omega)]
  rfl

/-- Witness for data_show_scales_by_500 at v = 255. -/
theorem data_show_scales_by_500_witness :
    255 ≤ 255 ∧ data_show (-5) 255 = toString (255 * 500) ++ "\n" :=
  ⟨by decide, data_show_scales_by_500 (-5) 255 (by decide)⟩

/-- C2: when allocation and regmap initialisation succeed and the ID read
returns a nonnegative status, probe returns -ENODEV when the value read
differs from SPISENS_ID and continues to success when it equals it. -/
theorem probe_id_check (env : ProbeEnv)
    (halloc : env.kzalloc_ok = true)
    (hregmap : env.regmap_init = Except.ok ())
    (hstatus : 0 ≤ env.id_read_status) :
    (env.id_read_val ≠ SPISENS_ID → spisens_probe env = -ENODEV)
    ∧ (env.id_read_val = SPISENS_ID → spisens_probe env = 0) := by
  constructor <;> intro hid <;>
    simp [spisens_probe, spisens_probe_tr, halloc, hregmap, hid, not_lt.mpr hstatus]

/-- Witness for probe_id_check: an ID value of 0x33 makes probe return -19. -/
theorem probe_id_check_witness :
    spisens_probe ⟨true, Except.ok (), 0, 0x33, 0⟩ = -19 :=
  (probe_id_check ⟨true, Except.ok (), 0, 0x33, 0⟩ rfl rfl (by decide)).1 (by decide)

/-- The probe operation trace is one of four concrete prefixes of the
source's straight-line sequence alloc, regmap init, ID read, sysfs create. -/
theorem probe_tr_cases (env : ProbeEnv) :
    (spisens_probe_tr env).2 = [Op.alloc]
    ∨ (spisens_probe_tr env).2 = [Op.alloc, Op.regmapInit]
    ∨ (spisens_probe_tr env).2 = [Op.alloc, Op.regmapInit, Op.regRead SPISENS_REG_ID]
    ∨ (spisens_probe_tr env).2
      = [Op.alloc, Op.regmapInit, Op.regRead SPISENS_REG_ID, Op.sysfsCreate] := by
  unfold spisens_probe_tr
  split
  · exact Or.inl rfl
  · split
    · exact Or.inr (Or.inl rfl)
    · split
      · exact Or.inr (Or.inr (Or.inl rfl))
      · split
        · exact Or.inr (Or.inr (Or.inl rfl))
        · exact Or.inr (Or.inr (Or.inr rfl))

/-- C3: any of the three attach failure kinds (allocation failure, negative
ID-read status, unexpected identity value) makes probe return a negative
error code, and the operation trace never repeats an operation: no retries. -/
theorem probe_failure_aborts (env : ProbeEnv)
    (hinit : ∀ e, env.regmap_init = Except.error e → e < 0)
    (hfail : env.kzalloc_ok = false ∨ (∃ e, env.regmap_init = Except.error e)
      ∨ env.id_read_status < 0 ∨ env.id_read_val ≠ SPISENS_ID) :
    spisens_probe env < 0 ∧ ∀ op, ((spisens_probe_tr env).2).count op ≤ 1 := by
  constructor
  · unfold spisens_probe spisens_probe_tr
    by_cases hk : env.kzalloc_ok = false
    · rw [if_pos hk]; decide
    · rw [if_neg hk]
      cases hr : env.regmap_init with
      | error e => exact hinit e hr
      | ok u =>
        rcases hfail with h | ⟨e, he⟩ | h | h
        · exact absurd h hk
        · rw [hr] at he; exact Except.noConfusion he
        · simp [h]
        · by_cases hs : env.id_read_status < 0
          · simp [hs]
          · simp [hs, h]; decide
  · intro op
    rcases probe_tr_cases env with h | h | h | h <;> rw [h] <;>
      exact List.nodup_iff_count_le_one.mp (by decide) op

/-- Witness for probe_failure_aborts: allocation failure yields a negative
return. -/
theorem probe_failure_aborts_witness :
    spisens_probe ⟨false, Except.ok (), 0, 0x5A, 0⟩ < 0 :=
  (probe_failure_aborts ⟨false, Except.ok (), 0, 0x5A, 0⟩
    (fun e h => Except.noConfusion h) (Or.inl rfl)).1

/-- C4: enable_store writes CTRL with bit 0 reflecting whether the parsed
integer is nonzero, returns count on a successful write, and returns the
negative write status when the write fails. -/
theorem enable_store_bit0_and_return (rerr : Int) (ctrl : Nat) (n : Int)
    (werr : Int) (count : Nat) :
    ((enable_store rerr ctrl n werr count).1).testBit 0 = decide (n ≠ 0)
    ∧ (0 ≤ werr → (enable_store rerr ctrl n werr count).2 = (count : Int))
    ∧ (werr < 0 → (enable_store rerr ctrl n werr count).2 = werr) := by
  have hm : NOT_CTRL_EN_MASK % 2 = 0 := by decide
  have he : CTRL_EN_MASK % 2 = 1 := by decide
  refine ⟨?_, ?_, ?_⟩
  · unfold enable_store enable_store_newctrl
    by_cases h : n = 0
    · simp [h, Nat.testBit_and, hm]
    · simp [h, Nat.testBit_or, he]
  · intro h; simp [enable_store, not_lt.mpr h]
  · intro h; simp [enable_store, h]

/-- Witness for enable_store_bit0_and_return at n = 1, werr = 0. -/
theorem enable_store_bit0_and_return_witness :
    ((enable_store 0 6 1 0 4).1).testBit 0 = true
    ∧ (enable_store 0 6 1 0 4).2 = 4 :=
  ⟨((enable_store_bit0_and_return 0 6 1 0 4).1).trans (by decide),
   (enable_store_bit0_and_return 0 6 1 0 4).2.1 (by decide)⟩

/-- C5: enable_show prints exactly the text 0 and a newline when bit 0 of
the CTRL value is clear and exactly 1 and a newline when it is set, whatever
the upper bits are. -/
theorem enable_show_reflects_bit0 (rerr : Int) (c : Nat) :
    (c % 2 = 0 → enable_show rerr c = "0\n")
    ∧ (c % 2 = 1 → enable_show rerr c = "1\n") := by
  have hand : c &&& CTRL_EN_MASK = c % 2 := Nat.and_one_is_mod c
  constructor <;> intro h <;> simp [enable_show, bang_bang, hand, h] <;> rfl

/-- Witness for enable_show_reflects_bit0 at c = 247 (odd, upper bits set). -/
theorem enable_show_reflects_bit0_witness :
    247 % 2 = 1 ∧ enable_show (-3) 247 = "1\n" :=
  ⟨by decide, (enable_show_reflects_bit0 (-3) 247).2 (by decide)⟩

/-- C6: the register map accepts writes only for the CTRL register, every
register write any driver operation performs targets CTRL (never ID or
DATA), and the data attribute exposes no store callback. -/
theorem only_ctrl_is_written :
    (∀ reg, spisens_regmap_is_writeable reg = true ↔ reg = SPISENS_REG_CTRL)
    ∧ (∀ ctrl n env r,
        r ∈ writesIn (enable_show_ops ++ data_show_ops ++ enable_store_ops ctrl n
          ++ (spisens_probe_tr env).2) →
        r = SPISENS_REG_CTRL ∧ r ≠ SPISENS_REG_ID ∧ r ≠ SPISENS_REG_DATA)
    ∧ dev_attr_data.has_store = false := by
  refine ⟨?_, ?_, rfl⟩
  · intro reg
    simp [spisens_regmap_is_writeable]
  · intro ctrl n env r hr
    have hw : writesIn (spisens_probe_tr env).2 = [] := by
      rcases probe_tr_cases env with h | h | h | h <;> rw [h] <;> rfl
    have hsplit : writesIn (enable_show_ops ++ data_show_ops
          ++ enable_store_ops ctrl n ++ (spisens_probe_tr env).2)
        = writesIn enable_show_ops ++ writesIn data_show_ops
          ++ writesIn (enable_store_ops ctrl n)
          ++ writesIn (spisens_probe_tr env).2 := by
      simp [writesIn, List.filterMap_append]
    rw [hsplit, hw] at hr
    have h1 : writesIn enable_show_ops = [] := rfl
    have h2 : writesIn data_show_ops = [] := rfl
    have h3 : writesIn (enable_store_ops ctrl n) = [SPISENS_REG_CTRL] := rfl
    rw [h1, h2, h3] at hr
    simp at hr
    exact ⟨hr, by rw [hr]; decide, by rw [hr]; decide⟩

/-- Witness for only_ctrl_is_written at register 16 and a concrete trace. -/
theorem only_ctrl_is_written_witness :
    spisens_regmap_is_writeable SPISENS_REG_CTRL = true
    ∧ SPISENS_REG_CTRL ≠ SPISENS_REG_ID ∧ SPISENS_REG_CTRL ≠ SPISENS_REG_DATA
    ∧ dev_attr_data.has_store = false :=
  ⟨(only_ctrl_is_written.1 SPISENS_REG_CTRL).mpr rfl,
   (only_ctrl_is_written.2.1 0 1 ⟨true, Except.ok (), 0, 0x5A, 0⟩
      SPISENS_REG_CTRL (by decide)).2.1,
   (only_ctrl_is_written.2.1 0 1 ⟨true, Except.ok (), 0, 0x5A, 0⟩
      SPISENS_REG_CTRL (by decide)).2.2,
   only_ctrl_is_written.2.2⟩

/-- C7: enable_store performs a read-modify-write: the value it writes to
CTRL agrees with the value it read on every bit from 1 through 7, whatever
integer was parsed. -/
theorem enable_store_preserves_high_bits (rerr : Int) (ctrl : Nat) (n : Int)
    (werr : Int) (count : Nat) (i : Nat) (h1 : 1 ≤ i) (h7 : i ≤ 7) :
    ((enable_store rerr ctrl n werr count).1).testBit i = ctrl.testBit i := by
  show (enable_store_newctrl ctrl n).testBit i = ctrl.testBit i
  unfold enable_store_newctrl
  by_cases h : n = 0
  · rw [if_pos h, Nat.testBit_and]
    have hbit : NOT_CTRL_EN_MASK.testBit i = true := by interval_cases i <;> decide
    rw [hbit, Bool.and_true]
  · rw [if_neg h, Nat.testBit_or]
    have hbit : CTRL_EN_MASK.testBit i = false := by interval_cases i <;> decide
    rw [hbit, Bool.or_false]

/-- Witness for enable_store_preserves_high_bits at bit 3 of 171. -/
theorem enable_store_preserves_high_bits_witness :
    1 ≤ 3 ∧ 3 ≤ 7 ∧ ((enable_store 0 171 0 0 1).1).testBit 3 = Nat.testBit 171 3 :=
  ⟨by decide, by decide,
   enable_store_preserves_high_bits 0 171 0 0 1 3 (by decide) (by decide)⟩

/-- C8: enable_show and data_show never consult the regmap_read status:
their output is the same for any status, they always return the positive
length of a formatted string (never a negative error), and the value
formatted still determines the output even when the read failed, i.e. the
uninitialized local residue is what gets printed. -/
theorem show_callbacks_ignore_read_status (e1 e2 : Int) (c t : Nat) :
    enable_show e1 c = enable_show e2 c
    ∧ data_show e1 t = data_show e2 t
    ∧ 0 < (enable_show e1 c).length
    ∧ 0 < (data_show e1 t).length
    ∧ data_show e1 0 ≠ data_show e1 2 := by
  have hn : ("\n").length = 1 := rfl
  refine ⟨rfl, rfl, ?_, ?_, ?_⟩
  · show 0 < (toString (bang_bang (c &&& CTRL_EN_MASK)) ++ "\n").length
    rw [String.length_append, hn]; omega
  · show 0 < (toString (int_of_uint ((t * 1000 % UINT_MOD) >>> 1)) ++ "\n").length
    rw [String.length_append, hn]; omega
  · intro h
    have h0 : data_show e1 0 = "0\n" := rfl
    have h2 : data_show e1 2 = "1000\n" := rfl
    rw [h0, h2] at h
    exact absurd h (by decide)

/-- Witness for show_callbacks_ignore_read_status at two distinct statuses. -/
theorem show_callbacks_ignore_read_status_witness :
    enable_show (-22) 5 = enable_show 7 5 ∧ 0 < (data_show (-22) 3).length :=
  ⟨(show_callbacks_ignore_read_status (-22) 7 5 3).1,
   (show_callbacks_ignore_read_status (-22) 7 5 3).2.2.2.1⟩

/-- C9: a sysfs group creation failure does not fail the attach: when
everything up to and including the ID check succeeds, probe returns 0 even
though sysfs_create_group reported a nonzero status. -/
theorem probe_succeeds_despite_sysfs_failure (env : ProbeEnv)
    (halloc : env.kzalloc_ok = true)
    (hregmap : env.regmap_init = Except.ok ())
    (hstatus : 0 ≤ env.id_read_status)
    (hid : env.id_read_val = SPISENS_ID)
    (hsys : env.sysfs_status ≠ 0) :
    spisens_probe env = 0 := by
  simp [spisens_probe, spisens_probe_tr, halloc, hregmap, hid, not_lt.mpr hstatus]

/-- Witness for probe_succeeds_despite_sysfs_failure with sysfs status -1. -/
theorem probe_succeeds_despite_sysfs_failure_witness :
    spisens_probe ⟨true, Except.ok (), 0, 0x5A, -1⟩ = 0 :=
  probe_succeeds_despite_sysfs_failure ⟨true, Except.ok (), 0, 0x5A, -1⟩ rfl rfl
    (by decide) rfl (by decide)

end Spisens
